import Mathlib

set_option maxHeartbeats 1000000
set_option maxRecDepth 40000

/-!
Verification development for the Chinese-Tutor backend
(`backend/app/services/speech_turn.py`, `backend/app/services/gemini_stt.py`,
`backend/app/models/speech_turn.py`, `backend/app/main.py`).

The Python code is shallowly embedded: pure functions become Lean functions,
Python strings become `String` manipulated through their character lists,
dictionaries become association lists, and remote calls become oracle
parameters.  Python values produced by `json.loads` are modelled by the
inductive `PyVal`; `json.loads` itself, a stdlib function, is modelled by a
fuel-based recursive-descent parser over the JSON grammar.
-/

/-! ## Basic string operations (Python semantics, over character lists) -/

/-- Model of Python substring test: `needle` occurs at the start of `hay`. -/
def listStartsWith : List Char → List Char → Bool
  | [], _ => true
  | _ :: _, [] => false
  | a :: as, b :: bs => a == b && listStartsWith as bs

/-- Model of Python `needle in hay` on character lists. -/
def listContainsSub (needle : List Char) : List Char → Bool
  | [] => needle.isEmpty
  | c :: rest => listStartsWith needle (c :: rest) || listContainsSub needle rest

/-- Model of the Python membership test `needle in hay` on strings. -/
def pyIn (needle hay : String) : Bool :=
  listContainsSub needle.data hay.data

/-- Model of Python `str.lower()` (inputs in this code base are ASCII). -/
def pyLower (s : String) : String :=
  String.mk (s.data.map Char.toLower)

/-- Drop whitespace from both ends of a character list. -/
def trimCL (cs : List Char) : List Char :=
  ((cs.dropWhile Char.isWhitespace).reverse.dropWhile Char.isWhitespace).reverse

/-- Model of Python `str.strip()` (ASCII whitespace). -/
def pyStrip (s : String) : String :=
  String.mk (trimCL s.data)

/-- Whitespace-separated tokens of a character list, used to model the
argument-free Python `str.split()` (runs of whitespace collapse, no empty
tokens). -/
def wsTokens : List Char → List Char → List String
  | acc, [] => if acc.isEmpty then [] else [String.mk acc.reverse]
  | acc, c :: rest =>
    if c.isWhitespace then
      if acc.isEmpty then wsTokens [] rest
      else String.mk acc.reverse :: wsTokens [] rest
    else wsTokens (c :: acc) rest

/-- Model of Python `s.split()`. -/
def pySplitWs (s : String) : List String :=
  wsTokens [] s.data

/-- Join a list of strings with a separator. -/
def joinSep (sep : String) : List String → String
  | [] => ""
  | [x] => x
  | x :: xs => x ++ sep ++ joinSep sep xs

/-! ## Python values and a model of `json.loads`

`PyVal` is the result type of Python `json.loads`: JSON null maps to Python
`None`, objects to `dict`, arrays to `list`.  Numbers keep their literal text
(their numeric value is never used by the code under verification beyond
truthiness and `str()` conversion, both modelled below with the simplification
that float underflow and repr normalisation are not modelled). -/

mutual

inductive PyVal where
  | none
  | bool (b : Bool)
  | num (lit : String)
  | str (s : String)
  | list (xs : PyList)
  | dict (kvs : PyDict)

inductive PyList where
  | nil
  | cons (v : PyVal) (rest : PyList)

inductive PyDict where
  | nil
  | cons (k : String) (v : PyVal) (rest : PyDict)

end

/-- Build a `PyList` from a Lean list. -/
def PyList.ofList : List PyVal → PyList
  | [] => .nil
  | v :: vs => .cons v (PyList.ofList vs)

/-- Build a `PyDict` from a Lean association list. -/
def PyDict.ofList : List (String × PyVal) → PyDict
  | [] => .nil
  | (k, v) :: kvs => .cons k v (PyDict.ofList kvs)

/-- Emptiness of a `PyList`. -/
def PyList.isEmpty : PyList → Bool
  | .nil => true
  | .cons _ _ => false

/-- Emptiness of a `PyDict`. -/
def PyDict.isEmpty : PyDict → Bool
  | .nil => true
  | .cons _ _ _ => false

/-- Python `dict.get`: later duplicate keys overwrite earlier ones. -/
def dictGet : PyDict → String → Option PyVal
  | .nil, _ => Option.none
  | .cons k v rest, key =>
    match dictGet rest key with
    | some r => some r
    | Option.none => if k == key then some v else Option.none

/-- A numeric literal whose mantissa has no nonzero digit (Python `0`, `0.0`,
`-0.0e5`, ...).  Float underflow of tiny exponents is not modelled. -/
def numIsZero (lit : String) : Bool :=
  (lit.data.takeWhile (fun c => c != 'e' && c != 'E')).all
    (fun c => !c.isDigit || c == '0')

/-- Python truthiness of the values `json.loads` can produce. -/
def pyTruthy : PyVal → Bool
  | .none => false
  | .bool b => b
  | .num lit => !numIsZero lit
  | .str s => s != ""
  | .list xs => !xs.isEmpty
  | .dict kvs => !kvs.isEmpty

mutual

/-- Python `repr` of a loaded JSON value. -/
def pyRepr : PyVal → String
  | .none => "None"
  | .bool true => "True"
  | .bool false => "False"
  | .num lit => lit
  | .str s => "\x27" ++ s ++ "\x27"
  | .list xs => "[" ++ joinSep ", " (pyReprList xs) ++ "]"
  | .dict kvs => "\x7b" ++ joinSep ", " (pyReprDict kvs) ++ "\x7d"

/-- `repr` of each element of a `PyList`. -/
def pyReprList : PyList → List String
  | .nil => []
  | .cons v rest => pyRepr v :: pyReprList rest

/-- `repr` of each entry of a `PyDict`. -/
def pyReprDict : PyDict → List String
  | .nil => []
  | .cons k v rest => ("\x27" ++ k ++ "\x27: " ++ pyRepr v) :: pyReprDict rest

end

/-- Python `str()` of a loaded JSON value: a `str` is returned as is, other
values fall back to their `repr`. -/
def pyStr (v : PyVal) : String :=
  match v with
  | .str s => s
  | v => pyRepr v

/-- JSON whitespace. -/
def isJsonWs (c : Char) : Bool :=
  c == ' ' || c == '\t' || c == '\n' || c == '\r'

/-- Skip JSON whitespace. -/
def skipWs : List Char → List Char
  | [] => []
  | c :: cs => if isJsonWs c then skipWs cs else c :: cs

/-- Hexadecimal digit value. -/
def hexVal (c : Char) : Option Nat :=
  if '0' ≤ c ∧ c ≤ '9' then some (c.toNat - '0'.toNat)
  else if 'a' ≤ c ∧ c ≤ 'f' then some (c.toNat - 'a'.toNat + 10)
  else if 'A' ≤ c ∧ c ≤ 'F' then some (c.toNat - 'A'.toNat + 10)
  else Option.none

/-- Scan the body of a JSON string literal (opening quote already consumed).
Raw control characters are rejected as in the strict stdlib decoder;
surrogate-pair recombination of `\u` escapes is not modelled. -/
def scanJsonString : List Char → List Char → Option (String × List Char)
  | _, [] => Option.none
  | acc, '"' :: rest => some (String.mk acc.reverse, rest)
  | acc, '\\' :: 'u' :: h1 :: h2 :: h3 :: h4 :: rest =>
    match hexVal h1, hexVal h2, hexVal h3, hexVal h4 with
    | some a, some b, some c, some d =>
      scanJsonString (Char.ofNat (((a * 16 + b) * 16 + c) * 16 + d) :: acc) rest
    | _, _, _, _ => Option.none
  | acc, '\\' :: e :: rest =>
    (match e with
     | '"' => some '"'
     | '\\' => some '\\'
     | '/' => some '/'
     | 'b' => some '\x08'
     | 'f' => some '\x0c'
     | 'n' => some '\n'
     | 'r' => some '\r'
     | 't' => some '\t'
     | _ => Option.none).bind (fun c => scanJsonString (c :: acc) rest)
  | acc, c :: rest =>
    if c.toNat < 32 then Option.none else scanJsonString (c :: acc) rest

/-- Longest digit run at the head of a character list. -/
def spanDigits (cs : List Char) : List Char × List Char :=
  (cs.takeWhile Char.isDigit, cs.dropWhile Char.isDigit)

/-- Parse a JSON number token, returning its literal text (grammar
`-? (0 | [1-9][0-9]*) (. [0-9]+)? ([eE][-+]?[0-9]+)?`). -/
def parseNumberCL (cs : List Char) : Option (String × List Char) :=
  let (sign, cs1) : List Char × List Char :=
    match cs with
    | '-' :: r => (['-'], r)
    | _ => ([], cs)
  let (ip, cs2) : List Char × List Char :=
    match cs1 with
    | '0' :: r => (['0'], r)
    | _ => spanDigits cs1
  if ip.isEmpty then Option.none
  else
    let (fp, cs3) : List Char × List Char :=
      match cs2 with
      | '.' :: r =>
        let (ds, r2) := spanDigits r
        if ds.isEmpty then ([], cs2) else ('.' :: ds, r2)
      | _ => ([], cs2)
    if cs3 ≠ cs2 ∨ fp.isEmpty then
      -- either a well-formed fraction was consumed, or there was none at all
      match cs2, fp with
      | '.' :: _, [] => Option.none   -- a dot not followed by digits is malformed
      | _, _ =>
        let (ep, cs4) : List Char × List Char :=
          match cs3 with
          | e :: r =>
            if e == 'e' || e == 'E' then
              let (sgn, r1) : List Char × List Char :=
                match r with
                | s :: r2 => if s == '+' || s == '-' then ([s], r2) else ([], r)
                | [] => ([], r)
              let (ds, r3) := spanDigits r1
              if ds.isEmpty then ([], cs3) else (e :: (sgn ++ ds), r3)
            else ([], cs3)
          | [] => ([], cs3)
        match cs3, ep with
        | e :: _, [] =>
          if e == 'e' || e == 'E' then
            -- an exponent marker not followed by digits is malformed
            Option.none
          else some (String.mk (sign ++ ip ++ fp), cs3)
        | _, _ => some (String.mk (sign ++ ip ++ fp ++ ep), cs4)
    else Option.none

mutual

/-- Fuel-based recursive-descent parser for a JSON value (model of the
stdlib `json` decoder; `NaN`/`Infinity` extensions are not modelled). -/
def parseJsonValue : Nat → List Char → Option (PyVal × List Char)
  | 0, _ => Option.none
  | fuel + 1, cs =>
    match cs with
    | [] => Option.none
    | '\x7b' :: rest =>
      let rest := skipWs rest
      (match rest with
       | '\x7d' :: r2 => some (PyVal.dict .nil, r2)
       | _ => parseJsonMembers fuel rest [])
    | '[' :: rest =>
      let rest := skipWs rest
      (match rest with
       | ']' :: r2 => some (PyVal.list .nil, r2)
       | _ => parseJsonElems fuel rest [])
    | '"' :: rest =>
      (scanJsonString [] rest).map (fun sv => (PyVal.str sv.1, sv.2))
    | 't' :: 'r' :: 'u' :: 'e' :: rest => some (PyVal.bool true, rest)
    | 'f' :: 'a' :: 'l' :: 's' :: 'e' :: rest => some (PyVal.bool false, rest)
    | 'n' :: 'u' :: 'l' :: 'l' :: rest => some (PyVal.none, rest)
    | _ =>
      (parseNumberCL cs).map (fun nv => (PyVal.num nv.1, nv.2))

/-- Parse the members of a JSON object after the opening brace. -/
def parseJsonMembers : Nat → List Char → List (String × PyVal) →
    Option (PyVal × List Char)
  | 0, _, _ => Option.none
  | fuel + 1, cs, acc =>
    match cs with
    | '"' :: rest =>
      match scanJsonString [] rest with
      | Option.none => Option.none
      | some (key, r1) =>
        match skipWs r1 with
        | ':' :: r2 =>
          match parseJsonValue fuel (skipWs r2) with
          | Option.none => Option.none
          | some (v, r3) =>
            match skipWs r3 with
            | ',' :: r4 => parseJsonMembers fuel (skipWs r4) (acc ++ [(key, v)])
            | '\x7d' :: r4 => some (PyVal.dict (PyDict.ofList (acc ++ [(key, v)])), r4)
            | _ => Option.none
        | _ => Option.none
    | _ => Option.none

/-- Parse the elements of a JSON array after the opening bracket. -/
def parseJsonElems : Nat → List Char → List PyVal → Option (PyVal × List Char)
  | 0, _, _ => Option.none
  | fuel + 1, cs, acc =>
    match parseJsonValue fuel cs with
    | Option.none => Option.none
    | some (v, r1) =>
      match skipWs r1 with
      | ',' :: r2 => parseJsonElems fuel (skipWs r2) (acc ++ [v])
      | ']' :: r2 => some (PyVal.list (PyList.ofList (acc ++ [v])), r2)
      | _ => Option.none

end

/-- Model of Python `json.loads`: exactly one JSON document, with optional
surrounding whitespace; anything else fails. -/
def jsonLoads (s : String) : Option PyVal :=
  match parseJsonValue (2 * s.data.length + 2) (skipWs s.data) with
  | some (v, rest) => if (skipWs rest).isEmpty then some v else Option.none
  | Option.none => Option.none

/-! ## `app/services/speech_turn.py`: the text result and its parsing -/

/-- The dataclass `SpeechTurnTextResult`.  The source annotates `intent` with
`Literal["translate_request", "unknown"]`, which Python does not enforce at
runtime; it is modelled as a `String` and the enum membership is proved. -/
structure SpeechTurnTextResult where
  normalized_request : String
  intent : String
  chinese : String
  pinyin : String
  notes : List String
deriving DecidableEq, Repr

/-- The fallback normalized request `f"How do I say: '{transcript}'?"`. -/
def defaultNormalizedRequest (transcript : String) : String :=
  "How do I say: \x27" ++ transcript ++ "\x27?"

/-- The safe default returned by `_parse_text_result` when anything in its
`try` block raises. -/
def defaultTextResult (transcript : String) : SpeechTurnTextResult :=
  { normalized_request := defaultNormalizedRequest transcript
  , intent := "unknown"
  , chinese := ""
  , pinyin := ""
  , notes := ["Unable to parse Gemini response."] }

/-- Elements of a `PyList` as a Lean list. -/
def PyList.toList : PyList → List PyVal
  | .nil => []
  | .cons v rest => v :: PyList.toList rest

/-- `_normalize_notes`: accepts a missing key or JSON null (Python `None`),
a string, a list (elements are passed through `str`), or any other value. -/
def normalizeNotes (raw : Option PyVal) : List String :=
  match raw with
  | Option.none => []
  | some PyVal.none => []
  | some (PyVal.str s) => [s]
  | some (PyVal.list xs) => xs.toList.map pyStr
  | some v => [pyStr v]

/-- The prefix alternative of `re.sub(r"^```json\s*|\s*```$", ...)` with
`re.IGNORECASE`: an initial ```` ```json ```` (any case) and the whitespace
after it are removed. -/
def stripFenceStart (cs : List Char) : List Char :=
  if (cs.take 7).map Char.toLower = "\x60\x60\x60json".data then
    (cs.drop 7).dropWhile Char.isWhitespace
  else cs

/-- The suffix alternative of the same substitution: a final ```` ``` ```` and
the whitespace before it are removed. -/
def stripFenceEnd (cs : List Char) : List Char :=
  let r := cs.reverse
  if r.take 3 = ['\x60', '\x60', '\x60'] then
    ((r.drop 3).dropWhile Char.isWhitespace).reverse
  else cs

/-- The code-fence stripping substitution applied by `_parse_text_result`. -/
def stripCodeFence (s : String) : String :=
  String.mk (stripFenceEnd (stripFenceStart s.data))

/-- Python `payload.get(k) or dflt`: the stored value if present and truthy,
otherwise the default. -/
def pyGetOr (kvs : PyDict) (k : String) (dflt : PyVal) : PyVal :=
  match dictGet kvs k with
  | some v => if pyTruthy v then v else dflt
  | Option.none => dflt

/-- The intent computed by `_parse_text_result`: `str(payload.get("intent")
or "unknown")`, coerced to `"unknown"` when outside the two-value enum. -/
def payloadIntent (kvs : PyDict) : String :=
  let i := pyStr (pyGetOr kvs "intent" (PyVal.str "unknown"))
  if i = "translate_request" ∨ i = "unknown" then i else "unknown"

/-- The successful branch of `_parse_text_result`, given the dictionary
returned by `json.loads`.  When the intent is `unknown`, `chinese` and
`pinyin` are forced to the empty string. -/
def parseTextResultPayload (kvs : PyDict) (transcript : String) : SpeechTurnTextResult :=
  { normalized_request :=
      pyStr (pyGetOr kvs "normalized_request" (PyVal.str (defaultNormalizedRequest transcript)))
  , intent := payloadIntent kvs
  , chinese := if payloadIntent kvs = "unknown" then ""
               else pyStr (pyGetOr kvs "chinese" (PyVal.str ""))
  , pinyin := if payloadIntent kvs = "unknown" then ""
              else pyStr (pyGetOr kvs "pinyin" (PyVal.str ""))
  , notes := normalizeNotes (dictGet kvs "notes") }

/-- `_parse_text_result(content, transcript)`.  The body strips the content,
removes code fences, and decodes JSON; any exception in the `try` block
(a JSON decode error, or the `.get` attribute error when the decoded value is
not a dictionary) yields the safe default. -/
def parseTextResult (content transcript : String) : SpeechTurnTextResult :=
  match jsonLoads (stripCodeFence (pyStrip content)) with
  | some (PyVal.dict kvs) => parseTextResultPayload kvs transcript
  | _ => defaultTextResult transcript

/-! ## Heuristic shortcut, LLM stage and response shaping -/

/-- `_looks_like_translate_request`. -/
def looksLikeTranslateRequest (t : String) : Bool :=
  let s := pyLower t
  pyIn "how do i say" s || (pyIn "say " s && pyIn " in chinese" s) || pyIn "in chinese" s

/-- The `SpeechTurnTextResult` built inline by `run_stt_and_llm` when the
heuristic detects a translation request (the Gemini text call is skipped). -/
def heuristicTextResult (transcript : String) : SpeechTurnTextResult :=
  { normalized_request := transcript
  , intent := "translate_request"
  , chinese := ""
  , pinyin := ""
  , notes := ["Heuristic: detected translation request."] }

/-- The LLM stage of `run_stt_and_llm`, given the transcript produced by the
STT stage.  `generated` is an oracle for a successful
`self._text_client.generate` call; the returned flag records whether that
remote call was made. -/
def runLlmStage (generated : String → SpeechTurnTextResult) (transcript : String) :
    SpeechTurnTextResult × Bool :=
  if looksLikeTranslateRequest transcript then (heuristicTextResult transcript, false)
  else (generated transcript, true)

/-- `_build_response_parts(transcript, text_result)`, returning
`(chinese, pinyin, notes, tts_text)`. -/
def buildResponseParts (transcript : String) (tr : SpeechTurnTextResult) :
    String × String × List String × String :=
  let incomplete := tr.intent = "translate_request" ∧ pyStrip tr.chinese = ""
  let notes := if incomplete then
      tr.notes ++ ["Translation incomplete; speaking a fallback. Please retry."]
    else tr.notes
  let chinese := if incomplete then "" else tr.chinese
  let pinyin := if incomplete then "" else tr.pinyin
  let tts_text := if chinese = "" then "I heard: " ++ transcript else chinese
  (chinese, pinyin, notes, tts_text)

/-! ## `app/services/gemini_stt.py`: the transcript normalizer -/

/-- `GeminiSTTClient._needs_normalization`: at most two whitespace-separated
tokens, or a known garbled substring. -/
def needsNormalization (t : String) : Bool :=
  let s := pyStrip t
  if (pySplitWs s).length ≤ 2 then true
  else
    let lower := pyLower s
    pyIn " and chinese" lower || pyIn " stay " lower || pyIn " bargain chip" lower

/-- The normalization stage of `GeminiSTTClient.transcribe` applied to the raw
transcript.  `cleanup` is an oracle for the stripped text returned by the
constrained `normalize_transcript` generation call; when it yields the empty
string the raw transcript is kept (`cleaned or transcript`). -/
def normalizeStage (cleanup : String → String) (raw : String) : String :=
  if needsNormalization raw then
    (if cleanup raw = "" then raw else cleanup raw)
  else raw

/-! ## `GeminiSpeechTurnTextClient.generate`: the 429 retry loop

The loop makes at most three HTTP posts (`for attempt in range(3)`).  A 429
response triggers a sleep of `0.5 * 2 ** attempt` seconds and another
iteration; any other status at or above 400 breaks out and the stored
exception is re-raised; a response without text raises; otherwise the parsed
text result is returned.  Responses are an oracle indexed by attempt number;
the model returns the outcome together with the list of backoff waits (in
seconds, as rationals) and the number of posts made. -/

/-- One Gemini HTTP response as seen by the retry loop: the status code and
the extracted `candidates[0].content.parts[0].text`. -/
structure GenHttpResponse where
  status : Nat
  text : Option String
deriving DecidableEq, Repr

/-- Outcome of `GeminiSpeechTurnTextClient.generate`. -/
inductive GenOutcome where
  | ok (r : SpeechTurnTextResult)
  | httpStatusError (status : Nat)
  | noContentError
  | retriesExhausted
deriving DecidableEq, Repr

/-- The backoff wait before retry number `attempt + 1`: `0.5 * 2 ** attempt`
seconds (exactly representable, modelled as a rational). -/
def backoffWait (attempt : Nat) : Rat :=
  (1 / 2 : Rat) * 2 ^ attempt

/-- The retry loop of `generate`, with `remaining` iterations left. -/
def generateAux (transcript : String) (rs : Nat → GenHttpResponse) :
    Nat → Nat → List Rat → Nat → GenOutcome × List Rat × Nat
  | _, 0, waits, posts => (.retriesExhausted, waits, posts)
  | attempt, remaining + 1, waits, posts =>
    let resp := rs attempt
    if resp.status = 429 then
      generateAux transcript rs (attempt + 1) remaining (waits ++ [backoffWait attempt]) (posts + 1)
    else if 400 ≤ resp.status then (.httpStatusError resp.status, waits, posts + 1)
    else
      match resp.text with
      | Option.none => (.noContentError, waits, posts + 1)
      | some c =>
        if c = "" then (.noContentError, waits, posts + 1)
        else (.ok (parseTextResult c transcript), waits, posts + 1)

/-- `GeminiSpeechTurnTextClient.generate`, modelled over the response oracle. -/
def generate (transcript : String) (rs : Nat → GenHttpResponse) :
    GenOutcome × List Rat × Nat :=
  generateAux transcript rs 0 3 [] 0

/-! ## `app/models/speech_turn.py`: the pydantic response models

pydantic constructions are modelled as checked constructors returning
`Except`: a validation failure corresponds to a raised `ValidationError`.
With the default model configuration, keyword arguments that are not declared
fields are silently ignored. -/

/-- The `SpeechTurnAudio` model. -/
structure SpeechTurnAudio where
  format : String
  url : Option String
  base64 : Option String
deriving DecidableEq, Repr

/-- Python falsiness of an optional string (`None` or `""`). -/
def optFalsy : Option String → Bool
  | Option.none => true
  | some s => s == ""

/-- Checked construction of `SpeechTurnAudio`: the `format` literal is
validated, then the after-validator requires a url or base64 payload. -/
def mkSpeechTurnAudio (format : String) (url base64 : Option String) :
    Except String SpeechTurnAudio :=
  if format ≠ "mp3" ∧ format ≠ "wav" then
    Except.error "format: Input should be \x27mp3\x27 or \x27wav\x27"
  else if optFalsy url ∧ optFalsy base64 then
    Except.error "audio must include url or base64"
  else Except.ok ⟨format, url, base64⟩

/-- The `SpeechTurnAnalysis` model (scores are always absent in this
version; the float fields are modelled as rationals). -/
structure SpeechTurnAnalysis where
  overall_score : Option Rat
  phoneme_confidence : List Rat
deriving DecidableEq, Repr

/-- The `SpeechTurnResponse` model.  Its declared fields: note that there is
no `assistant_text`, `audio_url`, `audio_base64`, `audio_mime`,
`audio_job_id`, `audio_pending` or `tts_error` field, and that `audio` is
required and not nullable. -/
structure SpeechTurnResponse where
  source_lang : String
  target_lang : String
  scenario : Option String
  transcript : String
  normalized_request : String
  intent : String
  chinese : Option String
  pinyin : Option String
  notes : List String
  audio : SpeechTurnAudio
  analysis : SpeechTurnAnalysis
deriving DecidableEq, Repr

/-- Checked construction of `SpeechTurnResponse` from the values the callers
pass for its declared fields (`audio` is the value passed for the `audio`
keyword, possibly Python `None`).  Field validation rejects an intent outside
the two-value literal and a `None` audio; the after-validator then requires
`chinese` and `pinyin` for a `translate_request` intent. -/
def mkSpeechTurnResponse (source_lang target_lang : String) (scenario : Option String)
    (transcript normalized_request intent : String) (chinese pinyin : Option String)
    (notes : List String) (audio : Option SpeechTurnAudio) (analysis : SpeechTurnAnalysis) :
    Except String SpeechTurnResponse :=
  if intent ≠ "translate_request" ∧ intent ≠ "unknown" then
    Except.error "intent: Input should be \x27translate_request\x27 or \x27unknown\x27"
  else
    match audio with
    | Option.none => Except.error "audio: Input should be a valid SpeechTurnAudio"
    | some a =>
      if intent = "translate_request" ∧ (chinese = Option.none ∨ pinyin = Option.none) then
        Except.error "chinese and pinyin are required for translate_request"
      else
        Except.ok ⟨source_lang, target_lang, scenario, transcript, normalized_request,
                   intent, chinese, pinyin, notes, a, analysis⟩

/-- Whether an `Except` carries a success. -/
def exceptIsOk : Except ε α → Bool
  | .ok _ => true
  | .error _ => false

/-! ## `app/main.py`: audio size checks, job registry and handler paths -/

/-- The authenticated caller (`app/security.py`). -/
structure AuthContext where
  user_id : String
  roles : List String
  scopes : List String
deriving DecidableEq, Repr

/-- One entry of the `AUDIO_JOBS` registry (a `dict[str, str | None]`). -/
structure AudioJob where
  status : Option String
  audio_url : Option String
  audio_base64 : Option String
  audio_mime : Option String
  tts_error : Option String
  owner_id : Option String
deriving DecidableEq, Repr

/-- `AUDIO_JOBS.get(job_id)`. -/
def jobsGet (jobs : List (String × AudioJob)) (jobId : String) : Option AudioJob :=
  (jobs.find? (fun kv => kv.1 == jobId)).map (fun kv => kv.2)

/-- `AUDIO_JOBS[job_id] = job`. -/
def jobsSet (jobs : List (String × AudioJob)) (jobId : String) (job : AudioJob) :
    List (String × AudioJob) :=
  (jobId, job) :: jobs.filter (fun kv => kv.1 != jobId)

/-- The `SpeechAudioJobResponse` payload of `GET /v1/speech/audio/{job_id}`. -/
structure SpeechAudioJobResponse where
  status : String
  audio_url : Option String
  audio_base64 : Option String
  audio_mime : Option String
  tts_error : Option String
deriving DecidableEq, Repr

/-- Result of the job-poll endpoint: `404`, `403`, or the `200` payload. -/
inductive JobPollResult where
  | notFound
  | forbidden
  | ok (payload : SpeechAudioJobResponse)
deriving DecidableEq, Repr

/-- `job.get("status") or "pending"`. -/
def jobStatusOrPending : Option String → String
  | some s => if s = "" then "pending" else s
  | Option.none => "pending"

/-- The `speech_audio_job` endpoint body: unknown id is 404; a job whose
owner differs from the caller is 403 unless the caller holds the admin role;
otherwise the status payload is returned. -/
def speechAudioJob (jobs : List (String × AudioJob)) (jobId : String) (auth : AuthContext) :
    JobPollResult :=
  match jobsGet jobs jobId with
  | Option.none => .notFound
  | some job =>
    if job.owner_id ≠ some auth.user_id ∧ auth.roles.contains "admin" = false then
      .forbidden
    else
      .ok ⟨jobStatusOrPending job.status, job.audio_url, job.audio_base64,
           job.audio_mime, job.tts_error⟩

/-- The input rejections of `_speech_turn_handler`. -/
inductive TurnReject where
  | emptyAudio
  | tooLarge
deriving DecidableEq, Repr

/-- The opening of `_speech_turn_handler`: empty audio is rejected with 400
and oversized audio with 413 before `run_stt_and_llm` issues the first
upstream capability call.  The returned list names the upstream calls made. -/
def speechTurnEntry (audio : List Nat) (maxAudioBytes : Nat) :
    Except TurnReject Unit × List String :=
  if audio.length = 0 then (.error .emptyAudio, [])
  else if audio.length > maxAudioBytes then (.error .tooLarge, [])
  else (.ok (), ["transcribe"])

/-- `body_limit_middleware` on the speech-turn paths: a declared
`Content-Length` above `MAX_AUDIO_BYTES` is answered 413 before the handler
runs (`Option.none` models an absent or empty header). -/
def bodyLimitCheck (contentLength : Option Nat) (maxAudioBytes : Nat) : Option Nat :=
  match contentLength with
  | some n => if maxAudioBytes < n then some 413 else Option.none
  | Option.none => Option.none

/-! ## Synthesis calls from `main.py` into `SpeechTurnService`

`_speech_turn_handler` and its nested `_run_audio_job` both call
`service.synthesize_audio(tts_text=..., target_lang=..., base_url=...,
voice_name=...)`, while `SpeechTurnService.synthesize_audio` in
`app/services/speech_turn.py` declares only the keyword-only parameters
`tts_text`, `target_lang`, `base_url`.  Python call binding is modelled
explicitly so that the resulting `TypeError` is visible. -/

/-- The keyword-only parameters of `SpeechTurnService.synthesize_audio`. -/
def synthesizeAudioParams : List String :=
  ["tts_text", "target_lang", "base_url"]

/-- The keyword arguments passed by `main.py` at both call sites. -/
def mainSynthCallKwargs : List String :=
  ["tts_text", "target_lang", "base_url", "voice_name"]

/-- Python keyword-argument binding: every keyword must name a parameter and
every parameter must be supplied, else the call raises `TypeError`. -/
def pyCallBindsOk (params kwargs : List String) : Bool :=
  kwargs.all (fun k => params.contains k) && params.all (fun p => kwargs.contains p)

/-- Exceptions relevant to the handler paths. -/
inductive PyExn where
  | typeError (msg : String)
  | validationError (msg : String)
deriving DecidableEq, Repr

/-- The `TypeError` raised when `synthesize_audio` is called with the
unexpected keyword argument `voice_name`. -/
def voiceNameTypeError : PyExn :=
  .typeError "synthesize_audio() got an unexpected keyword argument \x27voice_name\x27"

/-- Outcome of the body of `SpeechTurnService.synthesize_audio` once entered:
either a wav file was written and cached (yielding its url), or some step in
the `try` block raised and the message was captured. -/
inductive TtsOutcome where
  | success (url : String)
  | failure (msg : String)
deriving DecidableEq, Repr

/-- `SpeechTurnService.synthesize_audio`, modelled over the synthesis
outcome; returns `(audio, audio_url, audio_mime, tts_error)` (the elapsed
milliseconds are not modelled).  An exception inside the `try` block is
captured into `tts_error`; empty text skips synthesis entirely. -/
def synthesizeAudio (outcome : TtsOutcome) (tts_text : String) :
    Option SpeechTurnAudio × Option String × Option String × Option String :=
  if tts_text = "" then (Option.none, Option.none, Option.none, Option.none)
  else
    match outcome with
    | .success url => (some ⟨"wav", some url, Option.none⟩, some url, some "audio/wav", Option.none)
    | .failure msg => (Option.none, Option.none, Option.none, some msg)

/-- The job record created by the deferred path of `_speech_turn_handler`. -/
def pendingJob (owner : String) : AudioJob :=
  ⟨some "pending", Option.none, Option.none, Option.none, Option.none, some owner⟩

/-- `AUDIO_JOBS[job_id] = {status: pending, ..., owner_id}`. -/
def createAudioJob (jobs : List (String × AudioJob)) (jobId owner : String) :
    List (String × AudioJob) :=
  jobsSet jobs jobId (pendingJob owner)

/-- The body of the background task `_run_audio_job`.  It has no exception
handler of its own: when the `synthesize_audio` call raises, the task dies
and the registry is left untouched; otherwise the job is overwritten once
with `ready` or `error`. -/
def runAudioJob (jobs : List (String × AudioJob)) (jobId owner : String)
    (outcome : TtsOutcome) (tts_text : String) :
    List (String × AudioJob) × Option PyExn :=
  if pyCallBindsOk synthesizeAudioParams mainSynthCallKwargs then
    let r := synthesizeAudio outcome tts_text
    let audio := r.1
    let url := r.2.1
    let mime := r.2.2.1
    let ttsErr := r.2.2.2
    let status : String := match url with | some _ => "ready" | Option.none => "error"
    (jobsSet jobs jobId
      ⟨some status, url,
       (match audio with | some a => a.base64 | Option.none => Option.none),
       mime, ttsErr, some owner⟩,
     Option.none)
  else (jobs, some voiceNameTypeError)

/-- The `SpeechTurnResponse` construction of the deferred path of
`_speech_turn_handler` (elapsed time above the 15s budget): `audio` is passed
as Python `None`, and the keywords `assistant_text`, `audio_url`,
`audio_base64`, `audio_mime`, `audio_job_id`, `audio_pending` and `tts_error`
are not declared fields of the model, so pydantic drops them. -/
def deferredTurnResponse (source_lang target_lang : String) (scenario : Option String)
    (transcript : String) (tr : SpeechTurnTextResult) (chinese pinyin : String)
    (notes : List String) : Except String SpeechTurnResponse :=
  mkSpeechTurnResponse source_lang target_lang scenario transcript
    tr.normalized_request tr.intent (some chinese) (some pinyin) notes
    Option.none ⟨Option.none, []⟩

/-- The tail of the inline path of `_speech_turn_handler`: the
`synthesize_audio` call (with its `voice_name` keyword) followed by the
`SpeechTurnResponse` construction, whose undeclared keywords pydantic drops
and whose `audio` keyword receives the audio value from synthesis. -/
def inlineTurnTail (outcome : TtsOutcome) (source_lang target_lang : String)
    (scenario : Option String) (transcript : String) (tr : SpeechTurnTextResult)
    (chinese pinyin : String) (notes : List String) (tts_text : String) :
    Except PyExn SpeechTurnResponse :=
  if pyCallBindsOk synthesizeAudioParams mainSynthCallKwargs then
    let r := synthesizeAudio outcome tts_text
    match mkSpeechTurnResponse source_lang target_lang scenario transcript
        tr.normalized_request tr.intent (some chinese) (some pinyin) notes
        r.1 ⟨Option.none, []⟩ with
    | .ok resp => .ok resp
    | .error e => .error (.validationError e)
  else .error voiceNameTypeError

/-! ## Claim theorems -/

/-- C2: every `SpeechTurnTextResult` produced by the intent/translation stage
(parsed from model output by `_parse_text_result`, or built inline by the
heuristic path of `run_stt_and_llm`) has empty `chinese` and `pinyin`
whenever its intent is `unknown`. -/
theorem c2_unknown_intent_forces_empty_content :
    ∀ (content transcript : String),
      ((parseTextResult content transcript).intent = "unknown" →
        (parseTextResult content transcript).chinese = "" ∧
        (parseTextResult content transcript).pinyin = "") ∧
      ((heuristicTextResult transcript).intent = "unknown" →
        (heuristicTextResult transcript).chinese = "" ∧
        (heuristicTextResult transcript).pinyin = "") := by
  intro content transcript
  constructor
  · intro h
    cases hj : jsonLoads (stripCodeFence (pyStrip content)) with
    | none =>
      simp [parseTextResult, hj, defaultTextResult]
    | some v =>
      cases v with
      | dict kvs =>
        simp only [parseTextResult, hj] at h ⊢
        simp only [parseTextResultPayload] at h ⊢
        rw [if_pos h, if_pos h]
        exact ⟨rfl, rfl⟩
      | none => simp [parseTextResult, hj, defaultTextResult]
      | bool b => simp [parseTextResult, hj, defaultTextResult]
      | num lit => simp [parseTextResult, hj, defaultTextResult]
      | str s => simp [parseTextResult, hj, defaultTextResult]
      | list xs => simp [parseTextResult, hj, defaultTextResult]
  · intro h
    simp [heuristicTextResult] at h

/-- Witness for C2 at the concrete unparseable content `"not json"`. -/
theorem c2_unknown_intent_forces_empty_content_witness :
    (parseTextResult "not json" "hi").intent = "unknown" ∧
    (parseTextResult "not json" "hi").chinese = "" ∧
    (parseTextResult "not json" "hi").pinyin = "" := by
  have h1 : (parseTextResult "not json" "hi").intent = "unknown" := by rfl
  have h2 := (c2_unknown_intent_forces_empty_content "not json" "hi").1 h1
  exact ⟨h1, h2⟩

/-- C3 counterexample: `_parse_text_result` performs no outermost-JSON-object
search.  The very JSON object that, parsed on its own, yields
`intent = "translate_request"` is ignored when surrounded by prose: the
result is the parse-failure default with `intent = "unknown"`, not the
content of the embedded object. -/
theorem c3_no_outermost_object_search :
    (parseTextResult "\x7b\"intent\": \"translate_request\", \"chinese\": \"xie xie\", \"pinyin\": \"xie4 xie4\", \"normalized_request\": \"thank you\", \"notes\": []\x7d" "t").intent = "translate_request" ∧
    parseTextResult "See: \x7b\"intent\": \"translate_request\", \"chinese\": \"xie xie\", \"pinyin\": \"xie4 xie4\", \"normalized_request\": \"thank you\", \"notes\": []\x7d done" "t" = defaultTextResult "t" ∧
    (parseTextResult "See: \x7b\"intent\": \"translate_request\", \"chinese\": \"xie xie\", \"pinyin\": \"xie4 xie4\", \"normalized_request\": \"thank you\", \"notes\": []\x7d done" "t").intent = "unknown" := by
  refine ⟨?_, ?_, ?_⟩ <;> decide

/-- C3 (amended): response parsing is total and never raises: code-fence
wrappers are stripped and the string is decoded as one JSON document; on any
failure (including a JSON object embedded in surrounding text, which the
code does not search for) the safe default with `intent = "unknown"`, empty
`chinese`/`pinyin` and the note `"Unable to parse Gemini response."` is
returned — in particular for the input `"not json"`. -/
theorem c3_defensive_parse_safe_default :
    ∀ (content transcript : String),
      ((∀ kvs, jsonLoads (stripCodeFence (pyStrip content)) ≠ some (PyVal.dict kvs)) →
        parseTextResult content transcript = defaultTextResult transcript) ∧
      (∀ kvs, jsonLoads (stripCodeFence (pyStrip content)) = some (PyVal.dict kvs) →
        parseTextResult content transcript = parseTextResultPayload kvs transcript) ∧
      parseTextResult "not json" transcript = defaultTextResult transcript ∧
      defaultTextResult transcript =
        { normalized_request := defaultNormalizedRequest transcript
        , intent := "unknown", chinese := "", pinyin := ""
        , notes := ["Unable to parse Gemini response."] } ∧
      parseTextResult "\x60\x60\x60json\n\x7b\"intent\": \"unknown\", \"notes\": [\"hi\"]\x7d\n\x60\x60\x60" transcript =
        { normalized_request := defaultNormalizedRequest transcript
        , intent := "unknown", chinese := "", pinyin := "", notes := ["hi"] } := by
  intro content transcript
  refine ⟨?_, ?_, rfl, rfl, rfl⟩
  · intro h
    cases hj : jsonLoads (stripCodeFence (pyStrip content)) with
    | none => simp [parseTextResult, hj]
    | some v =>
      cases v with
      | dict kvs => exact absurd hj (h kvs)
      | none => simp [parseTextResult, hj]
      | bool b => simp [parseTextResult, hj]
      | num lit => simp [parseTextResult, hj]
      | str s => simp [parseTextResult, hj]
      | list xs => simp [parseTextResult, hj]
  · intro kvs hj
    simp [parseTextResult, hj]

/-- Witness for C3 (amended) at concrete inputs. -/
theorem c3_defensive_parse_safe_default_witness :
    parseTextResult "not a json object at all" "w" = defaultTextResult "w" ∧
    parseTextResult "\x7b\"intent\": \"unknown\"\x7d" "w" =
      parseTextResultPayload (PyDict.ofList [("intent", PyVal.str "unknown")]) "w" := by
  constructor
  · refine (c3_defensive_parse_safe_default "not a json object at all" "w").1 ?_
    intro kvs h
    have hn : jsonLoads (stripCodeFence (pyStrip "not a json object at all")) = Option.none := by
      rfl
    rw [hn] at h
    exact Option.noConfusion h
  · exact (c3_defensive_parse_safe_default "\x7b\"intent\": \"unknown\"\x7d" "w").2.1
      (PyDict.ofList [("intent", PyVal.str "unknown")]) (by rfl)

/-- C4: on the transcript `"How do I say thank you in Chinese"` the LLM stage
takes the heuristic short-circuit (the remote-call flag is `false` for every
generation oracle), yielding `intent = "translate_request"`, blank
`chinese`/`pinyin` and the explanatory note; `_build_response_parts` then
appends the incomplete-translation note and emits the spoken fallback
`"I heard: How do I say thank you in Chinese"`. -/
theorem c4_heuristic_shortcut_scenario :
    ∀ (generated : String → SpeechTurnTextResult),
      runLlmStage generated "How do I say thank you in Chinese" =
        ({ normalized_request := "How do I say thank you in Chinese"
         , intent := "translate_request", chinese := "", pinyin := ""
         , notes := ["Heuristic: detected translation request."] }, false) ∧
      buildResponseParts "How do I say thank you in Chinese"
          (heuristicTextResult "How do I say thank you in Chinese") =
        ("", "",
         ["Heuristic: detected translation request.",
          "Translation incomplete; speaking a fallback. Please retry."],
         "I heard: How do I say thank you in Chinese") := by
  intro generated
  constructor
  · have h : looksLikeTranslateRequest "How do I say thank you in Chinese" = true := by decide
    simp [runLlmStage, h, heuristicTextResult]
  · decide

/-- Helper: the retry loop makes at most one post per remaining iteration. -/
theorem generateAux_posts_le (transcript : String) (rs : Nat → GenHttpResponse) :
    ∀ (remaining attempt : Nat) (waits : List Rat) (posts : Nat),
      (generateAux transcript rs attempt remaining waits posts).2.2 ≤ posts + remaining := by
  intro remaining
  induction remaining with
  | zero => intro attempt waits posts; simp [generateAux]
  | succ n ih =>
    intro attempt waits posts
    simp only [generateAux]
    by_cases h429 : (rs attempt).status = 429
    · simp only [h429, if_pos rfl]
      calc (generateAux transcript rs (attempt + 1) n (waits ++ [backoffWait attempt]) (posts + 1)).2.2
          ≤ (posts + 1) + n := ih (attempt + 1) (waits ++ [backoffWait attempt]) (posts + 1)
        _ ≤ posts + (n + 1) := by omega
    · rw [if_neg h429]
      by_cases h400 : 400 ≤ (rs attempt).status
      · rw [if_pos h400]
        show posts + 1 ≤ posts + (n + 1)
        omega
      · rw [if_neg h400]
        cases (rs attempt).text with
        | none =>
          show posts + 1 ≤ posts + (n + 1)
          omega
        | some c =>
          show (if c = "" then (GenOutcome.noContentError, waits, posts + 1)
                else (GenOutcome.ok (parseTextResult c transcript), waits, posts + 1)).2.2 ≤
              posts + (n + 1)
          by_cases hc : c = ""
          · rw [if_pos hc]
            show posts + 1 ≤ posts + (n + 1)
            omega
          · rw [if_neg hc]
            show posts + 1 ≤ posts + (n + 1)
            omega

/-- C7: the 429 retry policy of `GeminiSpeechTurnTextClient.generate`: at
most three posts are made; a non-429 HTTP failure on any attempt surfaces
immediately with no further retry; persistent 429s exhaust the three
attempts with backoff waits of 0.5s, 1.0s and 2.0s (base 0.5s, doubling per
attempt). -/
theorem c7_rate_limit_retry_policy :
    ∀ (transcript : String) (rs : Nat → GenHttpResponse),
      (generate transcript rs).2.2 ≤ 3 ∧
      ((rs 0).status ≠ 429 → 400 ≤ (rs 0).status →
        generate transcript rs = (.httpStatusError (rs 0).status, [], 1)) ∧
      ((rs 0).status = 429 → (rs 1).status ≠ 429 → 400 ≤ (rs 1).status →
        generate transcript rs = (.httpStatusError (rs 1).status, [backoffWait 0], 2)) ∧
      ((rs 0).status = 429 → (rs 1).status = 429 → (rs 2).status = 429 →
        generate transcript rs = (.retriesExhausted, [backoffWait 0, backoffWait 1, backoffWait 2], 3)) ∧
      backoffWait 0 = 1 / 2 ∧ backoffWait 1 = 1 ∧ backoffWait 2 = 2 := by
  intro transcript rs
  refine ⟨?_, ?_, ?_, ?_, ?_, ?_, ?_⟩
  · exact generateAux_posts_le transcript rs 3 0 [] 0
  · intro hne h400
    simp only [generate, generateAux]
    rw [if_neg hne, if_pos h400]
  · intro h0 hne h400
    simp only [generate, generateAux]
    rw [if_pos h0, if_neg hne, if_pos h400]
    simp
  · intro h0 h1 h2
    simp only [generate, generateAux]
    rw [if_pos h0, if_pos h1, if_pos h2]
    simp
  · norm_num [backoffWait]
  · norm_num [backoffWait]
  · norm_num [backoffWait]

/-- Witness for C7: persistent 429s yield exhaustion after waits of 0.5s,
1.0s, 2.0s; an immediate 500 surfaces with one post and no waits. -/
theorem c7_rate_limit_retry_policy_witness :
    generate "t" (fun _ => ⟨429, Option.none⟩) =
      (.retriesExhausted, [backoffWait 0, backoffWait 1, backoffWait 2], 3) ∧
    generate "t" (fun _ => ⟨500, Option.none⟩) = (.httpStatusError 500, [], 1) := by
  constructor
  · exact (c7_rate_limit_retry_policy "t" (fun _ => ⟨429, Option.none⟩)).2.2.2.1 rfl rfl rfl
  · exact (c7_rate_limit_retry_policy "t" (fun _ => ⟨500, Option.none⟩)).2.1 (by decide) (by decide)

/-- C8: for every poll of the audio-job endpoint, an unknown job id yields
404; a known job owned by a different identity yields 403 unless the caller
holds the admin role; the owner or an admin receives the 200 status
payload. -/
theorem c8_job_poll_authorization :
    ∀ (jobs : List (String × AudioJob)) (jobId : String) (auth : AuthContext),
      (jobsGet jobs jobId = Option.none → speechAudioJob jobs jobId auth = .notFound) ∧
      (∀ job, jobsGet jobs jobId = some job →
        job.owner_id ≠ some auth.user_id → auth.roles.contains "admin" = false →
        speechAudioJob jobs jobId auth = .forbidden) ∧
      (∀ job, jobsGet jobs jobId = some job →
        (job.owner_id = some auth.user_id ∨ auth.roles.contains "admin" = true) →
        speechAudioJob jobs jobId auth =
          .ok ⟨jobStatusOrPending job.status, job.audio_url, job.audio_base64,
               job.audio_mime, job.tts_error⟩) := by
  intro jobs jobId auth
  refine ⟨?_, ?_, ?_⟩
  · intro h
    simp [speechAudioJob, h]
  · intro job hj howner hadmin
    simp only [speechAudioJob, hj]
    rw [if_pos ⟨howner, hadmin⟩]
  · intro job hj h
    simp only [speechAudioJob, hj]
    rw [if_neg]
    intro ⟨howner, hadmin⟩
    cases h with
    | inl h => exact howner h
    | inr h => rw [h] at hadmin; exact Bool.noConfusion hadmin

/-- Witness for C8: a job owned by alice is 404 for an unknown id, 403 for
bob without the admin role, and 200 for bob with the admin role and for
alice herself. -/
theorem c8_job_poll_authorization_witness :
    speechAudioJob [("j1", pendingJob "alice")] "nope" ⟨"bob", ["user"], ["speech:write"]⟩ = .notFound ∧
    speechAudioJob [("j1", pendingJob "alice")] "j1" ⟨"bob", ["user"], ["speech:write"]⟩ = .forbidden ∧
    speechAudioJob [("j1", pendingJob "alice")] "j1" ⟨"bob", ["admin", "user"], ["speech:write"]⟩ =
      .ok ⟨"pending", Option.none, Option.none, Option.none, Option.none⟩ ∧
    speechAudioJob [("j1", pendingJob "alice")] "j1" ⟨"alice", ["user"], ["speech:write"]⟩ =
      .ok ⟨"pending", Option.none, Option.none, Option.none, Option.none⟩ := by
  refine ⟨?_, ?_, ?_, ?_⟩
  · exact (c8_job_poll_authorization [("j1", pendingJob "alice")] "nope"
      ⟨"bob", ["user"], ["speech:write"]⟩).1 (by decide)
  · exact (c8_job_poll_authorization [("j1", pendingJob "alice")] "j1"
      ⟨"bob", ["user"], ["speech:write"]⟩).2.1 (pendingJob "alice") (by decide) (by decide) (by decide)
  · exact (c8_job_poll_authorization [("j1", pendingJob "alice")] "j1"
      ⟨"bob", ["admin", "user"], ["speech:write"]⟩).2.2 (pendingJob "alice") (by decide) (Or.inr (by decide))
  · exact (c8_job_poll_authorization [("j1", pendingJob "alice")] "j1"
      ⟨"alice", ["user"], ["speech:write"]⟩).2.2 (pendingJob "alice") (by decide) (Or.inl (by decide))

/-- C9: an audio payload of exactly `MAX_AUDIO_BYTES` is accepted by the
speech-turn handler (and passes the body-limit middleware), one byte over is
rejected with 413, and empty audio is rejected with 400 — the rejections
happen before any upstream capability call. -/
theorem c9_audio_size_boundary :
    ∀ (maxAudioBytes : Nat) (a b : List Nat),
      0 < maxAudioBytes → a.length = maxAudioBytes → b.length = maxAudioBytes + 1 →
      speechTurnEntry a maxAudioBytes = (.ok (), ["transcribe"]) ∧
      speechTurnEntry b maxAudioBytes = (.error .tooLarge, []) ∧
      speechTurnEntry [] maxAudioBytes = (.error .emptyAudio, []) ∧
      bodyLimitCheck (some maxAudioBytes) maxAudioBytes = Option.none ∧
      bodyLimitCheck (some (maxAudioBytes + 1)) maxAudioBytes = some 413 := by
  intro m a b hm ha hb
  refine ⟨?_, ?_, ?_, ?_, ?_⟩
  · simp only [speechTurnEntry, ha]
    rw [if_neg (by omega : ¬ m = 0), if_neg (by omega : ¬ m > m)]
  · simp only [speechTurnEntry, hb]
    rw [if_neg (by omega : ¬ m + 1 = 0), if_pos (by omega : m + 1 > m)]
  · simp [speechTurnEntry]
  · simp only [bodyLimitCheck]
    rw [if_neg (by omega : ¬ m < m)]
  · simp only [bodyLimitCheck]
    rw [if_pos (by omega : m < m + 1)]

/-- Witness for C9 at a ceiling of 2 bytes. -/
theorem c9_audio_size_boundary_witness :
    speechTurnEntry [7, 7] 2 = (.ok (), ["transcribe"]) ∧
    speechTurnEntry [7, 7, 7] 2 = (.error .tooLarge, []) ∧
    speechTurnEntry [] 2 = (.error .emptyAudio, []) := by
  have h := c9_audio_size_boundary 2 [7, 7] [7, 7, 7] (by decide) (by decide) (by decide)
  exact ⟨h.1, h.2.1, h.2.2.1⟩

/-- C10: the normalization step of `GeminiSTTClient.transcribe` returns a
transcript that is not flagged by `_needs_normalization` unchanged (so
applying it twice equals applying it once), and keeps the raw transcript
when the cleanup call for a flagged transcript yields the empty string. -/
theorem c10_normalizer_idempotent_on_clean :
    ∀ (cleanup : String → String) (raw : String),
      (needsNormalization raw = false →
        normalizeStage cleanup raw = raw ∧
        normalizeStage cleanup (normalizeStage cleanup raw) = normalizeStage cleanup raw) ∧
      (needsNormalization raw = true → cleanup raw = "" →
        normalizeStage cleanup raw = raw) := by
  intro cleanup raw
  constructor
  · intro h
    have h1 : normalizeStage cleanup raw = raw := by simp [normalizeStage, h]
    refine ⟨h1, ?_⟩
    rw [h1]
    exact h1
  · intro h hc
    simp [normalizeStage, h, hc]

/-- Witness for C10: a clean transcript is returned unchanged twice over; a
flagged transcript with an empty cleanup result is kept. -/
theorem c10_normalizer_idempotent_on_clean_witness :
    needsNormalization "could you help me today" = false ∧
    normalizeStage (fun _ => "") "could you help me today" = "could you help me today" ∧
    normalizeStage (fun _ => "")
      (normalizeStage (fun _ => "") "could you help me today") =
      normalizeStage (fun _ => "") "could you help me today" ∧
    needsNormalization "hi" = true ∧
    normalizeStage (fun _ => "") "hi" = "hi" := by
  have hclean : needsNormalization "could you help me today" = false := by decide
  have h1 := (c10_normalizer_idempotent_on_clean (fun _ => "") "could you help me today").1 hclean
  have hflag : needsNormalization "hi" = true := by decide
  have h2 := (c10_normalizer_idempotent_on_clean (fun _ => "") "hi").2 hflag rfl
  exact ⟨hclean, h1.1, h1.2, hflag, h2⟩

/-- C1 (code evaluated at the failing input): the deferred path of
`_speech_turn_handler` can never return a `TurnResponse`.  The response model
requires a non-null `audio` and has no `audio_job_id` field, so the
construction with `audio=None` (and the dropped job-pointer keywords) fails
validation for every field assignment; in particular it fails on the
concrete deferred turn built from the heuristic text result. -/
theorem c1_deferred_response_construction_fails :
    (∀ (source_lang target_lang : String) (scenario : Option String) (transcript : String)
       (tr : SpeechTurnTextResult) (chinese pinyin : String) (notes : List String),
       exceptIsOk (deferredTurnResponse source_lang target_lang scenario transcript
         tr chinese pinyin notes) = false) ∧
    deferredTurnResponse "en" "zh" (some "restaurant") "hi"
        (heuristicTextResult "hi") "" "" ["Heuristic: detected translation request."] =
      Except.error "audio: Input should be a valid SpeechTurnAudio" := by
  constructor
  · intro sl tl sc t tr c p ns
    unfold deferredTurnResponse mkSpeechTurnResponse
    by_cases h : tr.intent ≠ "translate_request" ∧ tr.intent ≠ "unknown"
    · rw [if_pos h]
      rfl
    · rw [if_neg h]
      rfl
  · rfl

/-- C5 (code evaluated at the failing input): a job created `pending` by the
deferred path stays `pending` forever.  The background task `_run_audio_job`
calls `synthesize_audio` with the keyword `voice_name`, which
`SpeechTurnService.synthesize_audio` does not accept, so the task raises
`TypeError`; the task body has no exception handler, hence the exception is
never recorded into the job and the registry entry is left untouched. -/
theorem c5_background_job_dies_job_stays_pending :
    ∀ (jobs : List (String × AudioJob)) (jobId owner : String)
      (outcome : TtsOutcome) (tts_text : String),
      runAudioJob (createAudioJob jobs jobId owner) jobId owner outcome tts_text =
        (createAudioJob jobs jobId owner, some voiceNameTypeError) ∧
      jobsGet (createAudioJob jobs jobId owner) jobId = some (pendingJob owner) := by
  intro jobs jobId owner outcome tts_text
  constructor
  · unfold runAudioJob
    rw [if_neg (by decide : ¬ pyCallBindsOk synthesizeAudioParams mainSynthCallKwargs = true)]
  · unfold createAudioJob jobsSet jobsGet
    simp [List.find?]

/-- C6 (code evaluated at the failing input): an inline turn fails instead of
degrading when synthesis fails.  The handler's `synthesize_audio` call raises
`TypeError` (unexpected keyword `voice_name`), aborting the turn; and even if
the call bound, a synthesis failure yields a null audio value together with
the captured error message, and the `SpeechTurnResponse` construction with a
null `audio` (its `tts_error` keyword being dropped) fails validation for
every field assignment. -/
theorem c6_synthesis_failure_fails_turn :
    ∀ (outcome : TtsOutcome) (source_lang target_lang : String) (scenario : Option String)
      (transcript : String) (tr : SpeechTurnTextResult) (chinese pinyin : String)
      (notes : List String) (tts_text : String),
      inlineTurnTail outcome source_lang target_lang scenario transcript tr chinese pinyin
          notes tts_text = Except.error voiceNameTypeError ∧
      (∀ msg, tts_text ≠ "" → synthesizeAudio (.failure msg) tts_text =
        (Option.none, Option.none, Option.none, some msg)) ∧
      (∀ (sl tl : String) (sc : Option String) (t nreq intent : String)
         (c p : Option String) (ns : List String) (an : SpeechTurnAnalysis),
         exceptIsOk (mkSpeechTurnResponse sl tl sc t nreq intent c p ns Option.none an) = false) := by
  intro outcome sl tl sc t tr c p ns tts_text
  refine ⟨?_, ?_, ?_⟩
  · unfold inlineTurnTail
    rw [if_neg (by decide : ¬ pyCallBindsOk synthesizeAudioParams mainSynthCallKwargs = true)]
  · intro msg h
    simp [synthesizeAudio, h]
  · intro sl' tl' sc' t' nreq' intent' c' p' ns' an'
    unfold mkSpeechTurnResponse
    by_cases h : intent' ≠ "translate_request" ∧ intent' ≠ "unknown"
    · rw [if_pos h]
      rfl
    · rw [if_neg h]
      rfl

/-- Witness for C6: a failed synthesis of the non-empty fallback text yields
a null audio value with the captured message. -/
theorem c6_synthesis_failure_fails_turn_witness :
    synthesizeAudio (.failure "ValueError: TTS returned no audio bytes.") "I heard: hi" =
      (Option.none, Option.none, Option.none,
       some "ValueError: TTS returned no audio bytes.") := by
  exact (c6_synthesis_failure_fails_turn (.failure "x") "en" "zh" Option.none "hi"
    (heuristicTextResult "hi") "" "" [] "I heard: hi").2.1
    "ValueError: TTS returned no audio bytes." (by decide)
